import Mathlib

/-!
Shallow embedding of `cncterm`'s curses dialog subsystem
(`src/curses_dialog.py`) and proofs about the frozen claims.

Conventions of the embedding:
* Python 2 integers are `Int` (unbounded, signed); Python 2 floor
  division `x / y` on ints is `Int.fdiv`.
* Python strings are `List Char`; `msg.insert(i, ch)` (which clamps the
  index: negative counts from the end, overlarge appends) is `pyInsert`.
* The curses window is pure rendering; calls such as `addstr`, `box`,
  `clear`, `refresh` change no dialog state and are omitted.  Geometry is
  kept because it feeds the wrap width and the viewport capacity.
* `win.getch()` delivers one pending input value per call.  `get_cmd`
  is modelled as a function from the pending input list to the decoded
  command together with the remaining inputs.  The dialog input loops
  consume the stream of command codes produced by `get_cmd`; a loop whose
  input list is exhausted is still blocked waiting (outcome `pending`).
-/

namespace CursesDialog

/-! ### Command codes, curses_dialog.py lines 31-41 -/

def UP : Int := 1
def DOWN : Int := 2
def RIGHT : Int := 3
def LEFT : Int := 4
def SELECT : Int := 5
def ESCAPE : Int := 6
def PGUP : Int := 7
def PGDN : Int := 8
def HOME : Int := 9
def END : Int := 10
def BACKSPACE : Int := 11

/-! ### Key decoder, `DialogBox.get_cmd`, lines 147-196 -/

/-- Continuation of `get_cmd` after an ESC (27) byte was read:
lines 164-194.  Reads a second byte; `[` starts a cursor sequence whose
third byte selects among Up/Down/Right/Left/PgUp/PgDn, `O` starts a
Home/End sequence; anything else falls through to `return 0`.
A read on an exhausted input list would block forever; the model returns
the no-op 0 with the empty rest. -/
def esc_seq : List Nat → Int × List Nat
  | [] => (0, [])
  | b2 :: rest2 =>
    if b2 = 91 then
      match rest2 with
      | [] => (0, [])
      | b3 :: rest3 =>
        if b3 = 65 then (UP, rest3)
        else if b3 = 66 then (DOWN, rest3)
        else if b3 = 67 then (RIGHT, rest3)
        else if b3 = 68 then (LEFT, rest3)
        else if b3 = 53 then (PGUP, rest3)
        else if b3 = 54 then (PGDN, rest3)
        else (0, rest3)
    else if b2 = 79 then
      match rest2 with
      | [] => (0, [])
      | b3 :: rest3 =>
        if b3 = 72 then (HOME, rest3)
        else if b3 = 70 then (END, rest3)
        else (0, rest3)
    else (0, rest2)

/-- `DialogBox.get_cmd`, lines 147-196.  `% 256` is the source's `& 0xff`.
Byte values: `\n` = 10, `[` = 91, `]` = 93, DEL = 127, BS = 8, ESC = 27. -/
def get_cmd : List Nat → Int × List Nat
  | [] => (0, [])
  | b :: rest =>
    if b = 10 then (SELECT, rest)
    else if b % 256 = 91 then (HOME, rest)
    else if b % 256 = 93 then (END, rest)
    else if 31 < b % 256 ∧ b % 256 < 127 then (1000 + (b % 256 : Int) - 32, rest)
    else if b = 127 ∨ b = 8 then (BACKSPACE, rest)
    else if b = 27 then esc_seq rest
    else (0, rest)

/-! ### Dialog construction, `DialogBox.__init__`, lines 44-48 -/

structure DialogBox where
  h : Int
  w : Int
  title : List Char

/-- `DialogBox.__init__(y, x, h, w, title)`: stores `self.w = w-2`,
`self.h = h-2` (the interior of the boxed window); `y`, `x` only place
the curses window. -/
def DialogBox.make (_y _x h w : Int) (title : List Char) : DialogBox :=
  { h := h - 2, w := w - 2, title := title }

/-! ### Word wrap, `DialogBox.show` lines 57-81
(also `DialogEntryBox.show` lines 361-384, which runs the same loop with
limit `self.w + 1` but the same hard-break index `self.w - 1`). -/

/-- Python 2 `list.insert(i, x)`: a negative index counts from the end
(clamped to 0), an index past the end appends. -/
def pyInsert (l : List α) (i : Int) (x : α) : List α :=
  let n : Int := l.length
  let pos : Int := if i < 0 then max 0 (n + i) else min i n
  l.insertIdx pos.toNat x

/-- Loop state of the wrap scan: `j` = column count since the last break,
`k` = index (into `text`) of the last space seen (`-1` = none),
`lines` = break count, `msg` = output character list. -/
structure WrapSt where
  j : Int
  k : Int
  lines : Int
  msg : List Char
deriving DecidableEq

/-- One iteration of the wrap loop (lines 60-78) on `(i, text[i])`.
`w` is the overflow limit (`self.w`, and `self.w + 1` in the entry box);
`hb` is the hard-break insertion index (`self.w - 1` in both). -/
def wrapStep (w hb : Int) (st : WrapSt) (p : Nat × Char) : WrapSt :=
  let ch := p.2
  let j := st.j + 1
  let k : Int := if ch = ' ' then (p.1 : Int) else st.k
  let jkl : Int × Int × Int :=
    if ch = '\n' then (0, -1, st.lines + 1) else (j, k, st.lines)
  if jkl.1 > w then
    { j := 0, k := jkl.2.1, lines := jkl.2.2 + 1,
      msg :=
        if jkl.2.1 = -1 then pyInsert st.msg hb '\n'
        else pyInsert (if jkl.2.1 = (p.1 : Int) then st.msg ++ [ch] else st.msg)
               jkl.2.1 '\n' }
  else { j := jkl.1, k := jkl.2.1, lines := jkl.2.2, msg := st.msg ++ [ch] }

/-- The whole wrap scan of lines 58-78: fold `wrapStep` over the indexed
characters of `text`, starting from `j = 0`, `k = -1`, `lines = 0`,
`msg = []`; the result is the accumulated `msg`. -/
def wrapText (w hb : Int) (text : List Char) : List Char :=
  (text.enum.foldl (wrapStep w hb) ⟨0, -1, 0, []⟩).msg

/-- The message rendered by lines 89-96 advances to the next row at each
`'\n'` of `msg`, so the displayed lines are `msg` split on `'\n'`. -/
def splitLines (msg : List Char) : List (List Char) :=
  msg.splitOn '\n'

/-! ### Return values

Python returns either a bare int (`return -1`, `return current_b`) or a
tuple (`return (-1, -1)`, `return (current_b, cursor_indx)`, ...); the
dynamic result type is modelled as a sum of the shapes that occur. -/

/-- A `DialogBox.show` return value: a bare int or an int pair. -/
inductive PyVal where
  | int (n : Int)
  | pair (a b : Int)
deriving DecidableEq

/-- Outcome of running `DialogBox.show` on a pending input stream.
`early` is the guard return of lines 54-56, taken before anything is
drawn; `finished` is a return out of the input loop (lines 119-132),
after the dialog was drawn; `pending` means the input stream was
exhausted with the loop still running. -/
inductive MShow where
  | early (v : PyVal)
  | finished (v : PyVal)
  | pending
deriving DecidableEq

/-! ### Button focus, shared by all three `show` loops
(lines 121-128, 275-282, 433-440 are identical) -/

/-- Effect of one command on `current_b` for `nb` buttons: LEFT decrements
and wraps `-1` to `nb - 1`, RIGHT increments and wraps `nb` to `0`,
everything else leaves the focus alone. -/
def btnStep (nb cur c : Int) : Int :=
  if c = LEFT then (if cur - 1 < 0 then nb - 1 else cur - 1)
  else if c = RIGHT then (if cur + 1 > nb - 1 then 0 else cur + 1)
  else cur

/-! ### Message box, `DialogBox.show`, lines 53-145 -/

/-- The input loop of `DialogBox.show` (lines 119-145): SELECT returns the
bare int `current_b`, ESCAPE returns the pair `(-1, -1)`, LEFT/RIGHT move
the focus, every other command only triggers a redraw. -/
def msgLoop (nb cur : Int) : List Int → MShow
  | [] => .pending
  | c :: cs =>
    if c = SELECT then .finished (.int cur)
    else if c = ESCAPE then .finished (.pair (-1) (-1))
    else msgLoop nb (btnStep nb cur c) cs

/-- `DialogBox.show(buttons, text, default)`: an empty button list returns
the bare int `-1` at once (lines 54-56, before any drawing); otherwise the
text is wrapped at `self.w` (hard-break index `self.w - 1`), the dialog is
drawn, and the loop starts with `current_b = default` (unclamped,
line 101).  The draw phase (lines 83-116) can itself raise `curses.error`
out of `show` — for instance the button `addstr` of line 113 raises
whenever its computed coordinates are negative, which happens for
non-positive geometry (see `buttonDrawCalls` and `cursesAddstrRaises`
below).  This function models the executions whose draw calls succeed;
statements about crashing geometry are made through the draw-call model
directly, never through this loop model. -/
def DialogBox.show (d : DialogBox) (buttons : List (List Char))
    (text : List Char) (default : Int) (input : List Int) : MShow :=
  if buttons = [] then .early (.int (-1))
  else
    let _msg := wrapText d.w (d.w - 1) text
    msgLoop buttons.length default input

/-- The `(y, x)` arguments of the button `addstr` calls of lines 102-113:
`y = self.h`, `dx = self.w / nb`, `x0 = dx / 2`, and for the `i`-th button
`x = (i+1)*dx - x0 - offset` with `offset = (len(button)+2) / 2`, all
Python 2 floor divisions.  The redraws of lines 139-145 (and the
analogous 262-268, 418-424, 459-465) reuse the same coordinates. -/
def buttonDrawCalls (d : DialogBox) (buttons : List (List Char)) :
    List (Int × Int) :=
  buttons.enum.map (fun q =>
    (d.h, ((q.1 : Int) + 1) * Int.fdiv d.w buttons.length
      - Int.fdiv (Int.fdiv d.w buttons.length) 2
      - Int.fdiv ((q.2.length : Int) + 2) 2))

/-- The host curses `addstr(y, x, s)` raises `curses.error` when the text
cannot be written at `(y, x)` of the window.  A negative coordinate always
raises, irrespective of the window size; whether an in-range-looking call
fits depends on the runtime terminal dimensions (`curses.newwin(0, 0, ...)`
spans the whole screen), so only the size-independent negative-coordinate
condition is modelled. -/
def cursesAddstrRaises (y x : Int) : Bool := y < 0 || x < 0

/-! ### List box, `DialogListBox.show`, lines 199-348 -/

/-- `item_disp_ct` as computed by the draw phase (lines 219-247) from the
interior height `h` (= `self.h`), the entry count `len` and the current
`start_indx`: start from `h - 1`, lose one row to the top `"..."` when
`start_indx > 0`, then either shrink to the remaining entries (short
list) or lose one more row to the bottom `"..."`. -/
def capacity (h len start : Int) : Int :=
  if len < start + (if 0 < start then h - 2 else h - 1)
  then len - start
  else (if 0 < start then h - 2 else h - 1) - 1

/-- `string.lower(entry[0][0])`: the lower-cased first character of a
label.  Python raises IndexError on an empty label; the model returns a
default the theorems never rely on. -/
def firstCharLower (s : List Char) : Char :=
  (s.headD (Char.ofNat 0)).toLower

/-- `string.lower(chr(32 + (c - 1000)))` (line 313): the character a
printable command code stands for, lower-cased. -/
def jumpChar (c : Int) : Char :=
  (Char.ofNat (32 + (c - 1000)).toNat).toLower

/-- Jump-to-character (lines 312-326): scan `range(cursor+1, len)` for the
first entry whose lower-cased first character equals the target; if none
matched (`Match = 0`), scan `range(cursor)`; if still none, keep the
cursor. -/
def jumpTarget (entries : List (List Char)) (cursor : Int) (t : Char) : Int :=
  match entries.enum.find?
      (fun q => decide (cursor + 1 ≤ (q.1 : Int)) && (firstCharLower q.2 == t)) with
  | some q => (q.1 : Int)
  | none =>
    match entries.enum.find?
        (fun q => decide ((q.1 : Int) < cursor) && (firstCharLower q.2 == t)) with
    | some q => (q.1 : Int)
    | none => cursor

/-- New cursor before clamping (lines 296-326). -/
def moveCursor (h : Int) (entries : List (List Char)) (s : Int × Int) (c : Int) : Int :=
  let len : Int := entries.length
  let cap := capacity h len s.2
  if c = UP then s.1 - 1
  else if c = DOWN then s.1 + 1
  else if c = PGDN then s.1 + cap
  else if c = PGUP then s.1 - cap
  else if c = HOME then 0
  else if c = END then len - 1
  else if 1000 ≤ c then jumpTarget entries s.1 (jumpChar c)
  else s.1

/-- The two sequential cursor clamps of lines 331-334. -/
def clamp2 (len x : Int) : Int :=
  let x1 := if x < 0 then 0 else x
  if len ≤ x1 then len - 1 else x1

/-- The two sequential viewport fixups of lines 335-346: whenever the
clamped cursor is outside `[start, start + cap)`, re-center to
`cursor - cap / 2` (Python 2 floor division) clamped to `≥ 0`; there is
no upper clamp against the entry count. -/
def recenter (cap cursor start : Int) : Int :=
  let start1 :=
    if cursor < start then
      (if cursor - Int.fdiv cap 2 < 0 then 0 else cursor - Int.fdiv cap 2)
    else start
  if start1 + cap ≤ cursor then
    (if cursor - Int.fdiv cap 2 < 0 then 0 else cursor - Int.fdiv cap 2)
  else start1

/-- Effect of one non-returning command on `(cursor_indx, start_indx)`:
one pass of lines 294-348 (the capacity was computed by the draw phase at
the top of the same pass, from the pre-command `start_indx`).  The
highlight writes into `entries[i][1]` are rendering attributes and carry
no further state. -/
def lstep (h : Int) (entries : List (List Char)) (s : Int × Int) (c : Int) :
    Int × Int :=
  let len : Int := entries.length
  let cap := capacity h len s.2
  let cursor := clamp2 len (moveCursor h entries s c)
  (cursor, recenter cap cursor s.2)

/-- Fold of `lstep` over a command list. -/
def runL (h : Int) (entries : List (List Char)) (s : Int × Int)
    (cs : List Int) : Int × Int :=
  cs.foldl (lstep h entries) s

/-- Outcome of `DialogListBox.show`: the guard return `-1` (lines
204-206), `return (current_b, cursor_indx)` on SELECT (line 285),
`return (-1, -1)` on ESCAPE (line 288), or an exhausted input stream. -/
inductive LShow where
  | early (n : Int)
  | finishedSel (b idx : Int)
  | finishedEsc
  | pending
deriving DecidableEq

/-- The input loop of `DialogListBox.show` (lines 218-348). -/
def listLoop (h : Int) (entries : List (List Char)) (nb : Int)
    (st : Int × Int × Int) : List Int → LShow
  | [] => .pending
  | c :: cs =>
    if c = SELECT then .finishedSel st.1 st.2.1
    else if c = ESCAPE then .finishedEsc
    else listLoop h entries nb (btnStep nb st.1 c, lstep h entries st.2 c) cs

/-- `DialogListBox.show(buttons, list, default, start_index)`: the guard
return precedes everything; then `start_indx = cursor_indx = start_index`
and `current_b = default` (lines 208-216) and the loop runs. -/
def DialogListBox.show (d : DialogBox) (buttons items : List (List Char))
    (default start_index : Int) (input : List Int) : LShow :=
  if buttons = [] then .early (-1)
  else listLoop d.h items buttons.length (default, start_index, start_index) input

/-! ### Entry box, `DialogEntryBox.show`, lines 351-473 -/

/-- Effect of one non-returning command on `entry_val` (lines 445-450):
BACKSPACE drops the last character of a non-empty value
(`entry_val[0:len(entry_val)-1]`), a printable code `c >= 1000` appends
`chr(32 + (c - 1000))`, everything else leaves the value alone. -/
def entryValStep (val : List Char) (c : Int) : List Char :=
  if c = BACKSPACE then (if val = [] then val else val.dropLast)
  else if 1000 ≤ c then val ++ [Char.ofNat (32 + (c - 1000)).toNat]
  else val

/-- Outcome of `DialogEntryBox.show`: the guard return `-1` (lines
357-359), `return (current_b, entry_val)` on SELECT (line 442),
`return (-1, -1)` on ESCAPE (line 444), or an exhausted input stream. -/
inductive EShow where
  | early (n : Int)
  | finishedSel (b : Int) (val : List Char)
  | finishedEsc
  | pending
deriving DecidableEq

/-- The input loop of `DialogEntryBox.show` (lines 431-473). -/
def entryLoop (nb : Int) (st : Int × List Char) : List Int → EShow
  | [] => .pending
  | c :: cs =>
    if c = SELECT then .finishedSel st.1 st.2
    else if c = ESCAPE then .finishedEsc
    else entryLoop nb (btnStep nb st.1 c, entryValStep st.2 c) cs

/-- `DialogEntryBox.show(buttons, text, default)`: guard return, then the
prompt is wrapped with limit `self.w + 1` (line 360) but hard-break index
`self.w - 1` (line 376), and the loop starts with `current_b = default`
and `entry_val = ""` (lines 412, 429). -/
def DialogEntryBox.show (d : DialogBox) (buttons : List (List Char))
    (text : List Char) (default : Int) (input : List Int) : EShow :=
  if buttons = [] then .early (-1)
  else
    let _msg := wrapText (d.w + 1) (d.w - 1) text
    entryLoop buttons.length (default, []) input

/-! ### Helper lemmas -/

set_option maxRecDepth 8000

/-- `find?` returns the head of the filtered list. -/
theorem find?_eq_head?_filter (p : α → Bool) :
    ∀ l : List α, l.find? p = (l.filter p).head? := by
  intro l
  induction l with
  | nil => rfl
  | cons x xs ih =>
    by_cases h : p x
    · rw [List.find?_cons_of_pos _ h, List.filter_cons_of_pos h, List.head?_cons]
    · rw [List.find?_cons_of_neg _ h, List.filter_cons_of_neg h, ih]

/-- Filtering twice and taking the head is `find?` with the conjunction. -/
theorem head?_filter_filter_eq_find? (A B : α → Bool) :
    ∀ l : List α, ((l.filter B).filter A).head? = l.find? (fun x => A x && B x) := by
  intro l
  induction l with
  | nil => rfl
  | cons x xs ih =>
    by_cases hB : B x <;> by_cases hA : A x <;>
      simp [List.filter_cons, List.find?_cons, hB, hA, ih]

theorem btnStep_mem (nb cur c : Int) (h0 : 0 ≤ cur) (h1 : cur < nb) :
    0 ≤ btnStep nb cur c ∧ btnStep nb cur c < nb := by
  unfold btnStep
  split_ifs <;> omega

theorem foldl_btnStep_mem (nb : Int) (cs : List Int) :
    ∀ cur : Int, 0 ≤ cur → cur < nb →
      0 ≤ cs.foldl (btnStep nb) cur ∧ cs.foldl (btnStep nb) cur < nb := by
  induction cs with
  | nil => intro cur h0 h1; exact ⟨h0, h1⟩
  | cons c cs ih =>
    intro cur h0 h1
    have h := btnStep_mem nb cur c h0 h1
    simpa using ih (btnStep nb cur c) h.1 h.2

/-! ### Claims C1 and C4: the word wrap -/

/-- Claim C1 (code behavior at the claimed inputs): at width 10 the wrap
of `"abcdefghij klmno"` keeps the break space at the head of the second
line (`" klmno"`), and the wrap of `"abc def ghijklmnop"` yields
`["abc def", " ghjklmnop"]`: the character `i` is dropped at the break
and the over-long token is not hard-broken, diverging from the claimed
`["abcdefghij", "klmno"]` and `["abc def", "ghijklmno", "p"]`. -/
theorem c1_wrap_at_claimed_inputs :
    splitLines (wrapText 10 9 "abcdefghij klmno".toList) =
      ["abcdefghij".toList, " klmno".toList] ∧
    splitLines (wrapText 10 9 "abc def ghijklmnop".toList) =
      ["abc def".toList, " ghjklmnop".toList] := by
  constructor <;> rfl

/-- Claim C4 (code behavior at a failing input): at width 10 the input
`"a bcdefghijklmnopqrstuvwxyz"` wraps to lines of lengths `[1, 0, 24]`:
the third line is 24 characters long, far beyond the width bound the
claim states, because the stale space index `k` is reused for a second
break inside the already-emitted part of `msg`. -/
theorem c4_wrap_line_exceeds_width :
    (splitLines (wrapText 10 9 "a bcdefghijklmnopqrstuvwxyz".toList)).map
        List.length = [1, 0, 24] := by
  rfl

/-! ### Claim C3: printable range of the decoder -/

/-- Claim C3, counterexample: the space byte 32 decodes to the printable
command encoding 1000 (all printable encodings are the codes `≥ 1000`),
contradicting the claim that 32 is outside the printable range. -/
theorem c3_space_decodes_printable :
    (get_cmd [32]).1 = 1000 ∧ 1000 ≤ (get_cmd [32]).1 := by
  constructor <;> rfl

/-- Claim C3 as amended: for a single byte `b < 256`, the decoder yields a
printable command (a code `≥ 1000`) exactly when `32 ≤ b ≤ 126` and `b`
is neither `'['` (91) nor `']'` (93) — the space byte 32 included — and
then the code is `1000 + b - 32`, so subtracting the fixed offset
recovers `b`; `'\n'` (10) maps to SELECT, `'['` to HOME and `']'` to
END. -/
theorem c3_printable_range (b : Nat) (hb : b < 256) :
    (1000 ≤ (get_cmd [b]).1 ↔ (32 ≤ b ∧ b ≤ 126 ∧ b ≠ 91 ∧ b ≠ 93)) ∧
    (1000 ≤ (get_cmd [b]).1 → (get_cmd [b]).1 = 1000 + (b : Int) - 32) ∧
    (get_cmd [10]).1 = SELECT ∧ (get_cmd [91]).1 = HOME ∧
    (get_cmd [93]).1 = END := by
  have H : ∀ x : Fin 256,
      (1000 ≤ (get_cmd [x.1]).1 ↔ (32 ≤ x.1 ∧ x.1 ≤ 126 ∧ x.1 ≠ 91 ∧ x.1 ≠ 93)) ∧
      (1000 ≤ (get_cmd [x.1]).1 → (get_cmd [x.1]).1 = 1000 + (x.1 : Int) - 32) := by
    decide
  exact ⟨(H ⟨b, hb⟩).1, (H ⟨b, hb⟩).2, rfl, rfl, rfl⟩

/-- Witness for `c3_printable_range` at the concrete byte 65 (`'A'`). -/
theorem c3_printable_range_witness :
    (1000 ≤ (get_cmd [65]).1 ↔ (32 ≤ 65 ∧ 65 ≤ 126 ∧ 65 ≠ 91 ∧ 65 ≠ 93)) ∧
    (1000 ≤ (get_cmd [65]).1 → (get_cmd [65]).1 = 1000 + (65 : Int) - 32) ∧
    (get_cmd [10]).1 = SELECT ∧ (get_cmd [91]).1 = HOME ∧
    (get_cmd [93]).1 = END :=
  c3_printable_range 65 (by decide)

/-! ### Claim C5: button index invariant -/

/-- Claim C5, counterexample: with the two buttons `OK`/`Cancel` and the
out-of-range default 5, `DialogBox.show` starts with `current_b = 5`
(no clamping happens) and SELECT returns the out-of-range index 5. -/
theorem c5_default_not_clamped :
    DialogBox.show (DialogBox.make 0 0 12 12 [])
        ["OK".toList, "Cancel".toList] [] 5 [SELECT] =
      MShow.finished (PyVal.int 5) ∧ ¬ ((5 : Int) < 2) := by
  constructor
  · rfl
  · omega

/-- Claim C5 as amended: in every dialog variant the button index
satisfies `0 ≤ current < len(buttons)` after any sequence of commands,
provided the caller-supplied default is itself in range; Left and Right
wrap modulo the button count.  (The default is used unclamped, so an
out-of-range default violates the invariant until navigation resets it;
all three loops step the focus with the same `btnStep`.) -/
theorem c5_button_index_invariant (buttons : List (List Char)) (d : Int)
    (cs : List Int) (h0 : 0 ≤ d) (h1 : d < (buttons.length : Int)) :
    0 ≤ cs.foldl (btnStep buttons.length) d ∧
    cs.foldl (btnStep buttons.length) d < (buttons.length : Int) :=
  foldl_btnStep_mem buttons.length cs d h0 h1

/-- Witness for `c5_button_index_invariant`: two buttons, default 1,
a LEFT then a RIGHT. -/
theorem c5_button_index_invariant_witness :
    0 ≤ [LEFT, RIGHT].foldl (btnStep (["OK".toList, "Cancel".toList]).length) 1 ∧
    [LEFT, RIGHT].foldl (btnStep (["OK".toList, "Cancel".toList]).length) 1 <
      ((["OK".toList, "Cancel".toList]).length : Int) :=
  c5_button_index_invariant ["OK".toList, "Cancel".toList] 1 [LEFT, RIGHT]
    (by decide) (by decide)

/-! ### Claim C8: fail-fast checks at `show` invocation -/

/-- Claim C8, counterexample: a dialog constructed with the non-positive
geometry `h = 0, w = 0` (so `self.h = self.w = -2`) is not rejected at
`show` invocation: the only fail-fast guard in `show` is the empty-button
test, which does not fire for the button list `["OK"]`, so `show`
proceeds past the guard into wrapping and drawing; the draw phase then
issues the button `addstr` at the negative coordinates `(-2, -3)`
(line 113), which raises an uncaught `curses.error` — a crash in the
middle of drawing, after the `clear`/`box`/title terminal I/O of lines
83-85 has already been performed, not a caller error signalled before
any terminal I/O. -/
theorem c8_geometry_crash_not_failfast :
    (DialogBox.make 0 0 0 0 []).h = -2 ∧ (DialogBox.make 0 0 0 0 []).w = -2 ∧
    (["OK".toList] : List (List Char)) ≠ [] ∧
    buttonDrawCalls (DialogBox.make 0 0 0 0 []) ["OK".toList] = [(-2, -3)] ∧
    cursesAddstrRaises (-2) (-3) = true := by
  refine ⟨rfl, rfl, by decide, rfl, rfl⟩

/-- Claim C8 as amended: each of the three `show` variants returns the
bare int `-1` immediately when invoked with an empty button list, before
any drawing or input; geometry is never validated. -/
theorem c8_empty_buttons_fail_fast :
    (∀ (d : DialogBox) (text : List Char) (default : Int) (input : List Int),
      DialogBox.show d [] text default input = MShow.early (PyVal.int (-1))) ∧
    (∀ (d : DialogBox) (items : List (List Char)) (default si : Int)
        (input : List Int),
      DialogListBox.show d [] items default si input = LShow.early (-1)) ∧
    (∀ (d : DialogBox) (text : List Char) (default : Int) (input : List Int),
      DialogEntryBox.show d [] text default input = EShow.early (-1)) := by
  refine ⟨fun d text default input => ?_, fun d items default si input => ?_,
    fun d text default input => ?_⟩ <;> rfl

/-! ### Claim C10: result shapes of the message box -/

/-- Claim C10: for the message box, SELECT returns the bare int
`current_b`, ESCAPE returns the pair `(-1, -1)`, an empty button list
returns the bare int `-1`, and with a non-empty button list `show` is the
loop started at the default; the int shape and the pair shape are
distinct values. -/
theorem c10_result_shapes :
    (∀ (nb cur : Int) (cs : List Int),
      msgLoop nb cur (SELECT :: cs) = MShow.finished (PyVal.int cur)) ∧
    (∀ (nb cur : Int) (cs : List Int),
      msgLoop nb cur (ESCAPE :: cs) = MShow.finished (PyVal.pair (-1) (-1))) ∧
    (∀ (d : DialogBox) (text : List Char) (default : Int) (input : List Int),
      DialogBox.show d [] text default input = MShow.early (PyVal.int (-1))) ∧
    (∀ (d : DialogBox) (b : List Char) (bs : List (List Char))
        (text : List Char) (default : Int) (input : List Int),
      DialogBox.show d (b :: bs) text default input =
        msgLoop (b :: bs).length default input) ∧
    (∀ n a b : Int, PyVal.int n ≠ PyVal.pair a b) := by
  refine ⟨fun nb cur cs => rfl, fun nb cur cs => ?_,
    fun d text default input => rfl,
    fun d b bs text default input => ?_, fun n a b h => ?_⟩
  · simp [msgLoop, SELECT, ESCAPE]
  · simp [DialogBox.show]
  · cases h

/-! ### Claim C7: entry buffer round trip -/

/-- A byte in the decoder's printable window (and not `[` or `]`) decodes
to the offset-encoded printable command `1000 + b - 32`. -/
theorem get_cmd_printable (b : Nat) (h1 : 31 < b) (h2 : b < 127)
    (h3 : b ≠ 91) (h4 : b ≠ 93) :
    get_cmd [b] = (1000 + (b : Int) - 32, []) := by
  have hm : b % 256 = b := Nat.mod_eq_of_lt (by omega)
  simp only [get_cmd, hm]
  rw [if_neg (by omega), if_neg h3, if_neg h4, if_pos ⟨h1, h2⟩]
  have hm2 : (b : Int) % 256 = (b : Int) := by omega
  rw [hm2]

/-- Claim C7: decoding a printable byte and dispatching the resulting
command in the entry box appends exactly the typed character;
BACKSPACE removes the last character of a non-empty value and is a no-op
on the empty value; the concrete byte sequence
`'G'`, `'1'`, `'0'`, DEL, `'0'` yields the value `"G10"`. -/
theorem c7_entry_roundtrip :
    (∀ b : Nat, 32 ≤ b → b ≤ 126 → b ≠ 91 → b ≠ 93 →
      ∀ val : List Char,
        entryValStep val (get_cmd [b]).1 = val ++ [Char.ofNat b]) ∧
    (∀ (xs : List Char) (x : Char), entryValStep (xs ++ [x]) BACKSPACE = xs) ∧
    entryValStep [] BACKSPACE = [] ∧
    ([71, 49, 48, 127, 48].map (fun b => (get_cmd [b]).1)).foldl entryValStep []
      = "G10".toList := by
  refine ⟨fun b hb1 hb2 hb3 hb4 val => ?_, fun xs x => ?_, rfl, rfl⟩
  · rw [get_cmd_printable b (by omega) (by omega) hb3 hb4]
    simp only [entryValStep, BACKSPACE]
    rw [if_neg (by omega), if_pos (by omega)]
    have harg : (32 + ((1000 + (b : Int) - 32) - 1000)).toNat = b := by omega
    rw [harg]
  · simp [entryValStep, BACKSPACE]

/-- Witness for `c7_entry_roundtrip`: typing `'G'` (byte 71) onto the
value `"x"` appends exactly `'G'`. -/
theorem c7_entry_roundtrip_witness :
    entryValStep ['x'] (get_cmd [71]).1 = ['x'] ++ [Char.ofNat 71] :=
  c7_entry_roundtrip.1 71 (by omega) (by omega) (by omega) (by omega) ['x']

/-! ### Claim C9: the inert no-op command -/

/-- Every decode of an escape continuation is the no-op 0 or a command
code in `1..11`. -/
theorem esc_seq_classify (bs : List Nat) :
    (esc_seq bs).1 = 0 ∨ (1 ≤ (esc_seq bs).1 ∧ (esc_seq bs).1 ≤ 11) := by
  match bs with
  | [] => exact Or.inl rfl
  | b2 :: rest2 =>
    match rest2 with
    | [] =>
      simp only [esc_seq]
      split_ifs <;> simp
    | b3 :: rest3 =>
      simp only [esc_seq, UP, DOWN, RIGHT, LEFT, PGUP, PGDN, HOME, END]
      split_ifs <;> simp

/-- Every decode is the no-op 0, a command code in `1..11`, or a
printable encoding `≥ 1000`. -/
theorem get_cmd_classify (bs : List Nat) :
    (get_cmd bs).1 = 0 ∨ (1 ≤ (get_cmd bs).1 ∧ (get_cmd bs).1 ≤ 11) ∨
      1000 ≤ (get_cmd bs).1 := by
  match bs with
  | [] => exact Or.inl rfl
  | b :: rest =>
    simp only [get_cmd, SELECT, HOME, END, BACKSPACE]
    split_ifs with hsel hhome hend hprint hbs hesc
    · omega
    · omega
    · omega
    · right; right; omega
    · omega
    · rcases esc_seq_classify rest with h | h
      · exact Or.inl h
      · exact Or.inr (Or.inl h)
    · exact Or.inl rfl

/-- Claim C9, counterexample: the unmatched escape sequence
`ESC [ Z` decodes to the no-op 0, yet dispatching 0 in the list box
does change dialog state: from the reachable state
`(cursor, start) = (2, 1)` (after two DOWNs from `(0, 0)` with interior
height 4 and three entries) the unconditional re-centering check moves
`start_indx` from 1 to 2. -/
theorem c9_noop_recenters_viewport :
    (get_cmd [27, 91, 90]).1 = 0 ∧
    runL 4 [['x'], ['y'], ['z']] (0, 0) [DOWN, DOWN] = (2, 1) ∧
    (lstep 4 [['x'], ['y'], ['z']] (2, 1) 0).2 = 2 ∧ (2 : Int) ≠ 1 := by
  refine ⟨rfl, rfl, rfl, by omega⟩

/-- Claim C9 as amended: every unmatched byte or escape sequence decodes
to 0, which is distinct from every logical command code and from every
printable encoding; dispatching 0 leaves the button focus, the entry
value and the list cursor unchanged and the loops simply continue (never
an error) — but the list box's unconditional re-centering check can still
move the viewport start. -/
theorem c9_noop_inert :
    (∀ bs : List Nat,
      (get_cmd bs).1 = 0 ∨ (1 ≤ (get_cmd bs).1 ∧ (get_cmd bs).1 ≤ 11) ∨
        1000 ≤ (get_cmd bs).1) ∧
    ((0 : Int) ≠ UP ∧ (0 : Int) ≠ DOWN ∧ (0 : Int) ≠ RIGHT ∧
      (0 : Int) ≠ LEFT ∧ (0 : Int) ≠ SELECT ∧ (0 : Int) ≠ ESCAPE ∧
      (0 : Int) ≠ PGUP ∧ (0 : Int) ≠ PGDN ∧ (0 : Int) ≠ HOME ∧
      (0 : Int) ≠ END ∧ (0 : Int) ≠ BACKSPACE ∧ ¬ (1000 ≤ (0 : Int))) ∧
    (∀ nb cur : Int, btnStep nb cur 0 = cur) ∧
    (∀ val : List Char, entryValStep val 0 = val) ∧
    (∀ (h : Int) (entries : List (List Char)) (s : Int × Int),
      0 ≤ s.1 → s.1 < (entries.length : Int) →
        (lstep h entries s 0).1 = s.1) ∧
    (∀ (nb cur : Int) (cs : List Int),
      msgLoop nb cur (0 :: cs) = msgLoop nb cur cs) := by
  refine ⟨get_cmd_classify, by decide, fun nb cur => ?_, fun val => ?_,
    fun h entries s h0 h1 => ?_, fun nb cur cs => ?_⟩
  · simp [btnStep, LEFT, RIGHT]
  · simp [entryValStep, BACKSPACE]
  · simp only [lstep, moveCursor, clamp2, UP, DOWN, PGDN, PGUP, HOME, END]
    norm_num
    split_ifs <;> omega
  · simp [msgLoop, SELECT, ESCAPE, btnStep, LEFT, RIGHT]

/-- Witness for `c9_noop_inert`: dispatching the no-op in a one-entry
list box leaves the cursor at 0. -/
theorem c9_noop_inert_witness :
    (lstep 5 [['x']] ((0 : Int), (0 : Int)) 0).1 = (0 : Int) :=
  c9_noop_inert.2.2.2.2.1 5 [['x']] (0, 0) (by omega) (by norm_num)

/-! ### Claim C6: jump-to-character -/

/-- Modelled from the spec for comparison with `jumpTarget` (the code's
search): among the entries whose lower-cased first character matches the
target, take the first with index in `cursor+1 .. total-1`; failing
that, the first with index in `0 .. cursor-1`; failing that, keep the
cursor. -/
def jumpRule (entries : List (List Char)) (cursor : Int) (t : Char) : Int :=
  match ((entries.enum.filter (fun q => firstCharLower q.2 == t)).filter
      (fun q => decide (cursor + 1 ≤ (q.1 : Int)))).head? with
  | some q => (q.1 : Int)
  | none =>
    match ((entries.enum.filter (fun q => firstCharLower q.2 == t)).filter
        (fun q => decide ((q.1 : Int) < cursor))).head? with
    | some q => (q.1 : Int)
    | none => cursor

/-- Claim C6: the code's jump search coincides with the spec's rule
(forward from `cursor+1`, then wrap to `0 .. cursor-1`, else unchanged),
and on `["Apple", "Banana", "Avocado"]` with the cursor at 0, the
printable command decoded from byte `'a'` moves the cursor to index 2,
not back to 0. -/
theorem c6_jump_to_character :
    (∀ (entries : List (List Char)) (cursor : Int) (t : Char),
      jumpTarget entries cursor t = jumpRule entries cursor t) ∧
    (lstep 10 ["Apple".toList, "Banana".toList, "Avocado".toList]
        (0, 0) (get_cmd [97]).1).1 = 2 := by
  constructor
  · intro entries cursor t
    unfold jumpTarget jumpRule
    rw [head?_filter_filter_eq_find?
        (fun q : Nat × List Char => decide (cursor + 1 ≤ (q.1 : Int)))
        (fun q : Nat × List Char => firstCharLower q.2 == t),
      head?_filter_filter_eq_find?
        (fun q : Nat × List Char => decide ((q.1 : Int) < cursor))
        (fun q : Nat × List Char => firstCharLower q.2 == t)]
  · decide

/-! ### Claim C2: viewport containment -/

/-- Validity of a list-box `(cursor_indx, start_indx)` pair. -/
def lvalid (len : Int) (s : Int × Int) : Prop :=
  0 ≤ s.1 ∧ s.1 < len ∧ 0 ≤ s.2 ∧ s.2 < len

theorem capacity_pos (h len start : Int) (hh : 4 ≤ h) (h2 : 0 ≤ start)
    (h3 : start < len) : 1 ≤ capacity h len start := by
  unfold capacity
  split_ifs <;> omega

theorem fdiv_half_bounds (cap : Int) (h : 1 ≤ cap) :
    0 ≤ Int.fdiv cap 2 ∧ Int.fdiv cap 2 < cap := by
  rw [Int.fdiv_eq_ediv _ (by omega)]
  omega

theorem clamp2_mem (len x : Int) (h : 1 ≤ len) :
    0 ≤ clamp2 len x ∧ clamp2 len x < len := by
  simp only [clamp2]
  split_ifs <;> omega

theorem recenter_spec (cap cursor start : Int) (hcap : 1 ≤ cap)
    (hcur : 0 ≤ cursor) (hstart : 0 ≤ start) :
    recenter cap cursor start ≤ cursor ∧
    cursor < recenter cap cursor start + cap ∧
    0 ≤ recenter cap cursor start := by
  have hf := fdiv_half_bounds cap hcap
  simp only [recenter]
  split_ifs <;> omega

/-- One list-box pass from a valid state restores containment with
respect to the capacity computed in that pass, and preserves validity. -/
theorem lstep_contains (h : Int) (entries : List (List Char))
    (s : Int × Int) (c : Int) (hh : 4 ≤ h)
    (hv : lvalid entries.length s) :
    ((lstep h entries s c).2 ≤ (lstep h entries s c).1 ∧
      (lstep h entries s c).1 <
        (lstep h entries s c).2 + capacity h entries.length s.2) ∧
    lvalid entries.length (lstep h entries s c) := by
  obtain ⟨h1, h2, h3, h4⟩ := hv
  have hlen : 1 ≤ (entries.length : Int) := by omega
  have hcap := capacity_pos h entries.length s.2 hh h3 h4
  have hcl := clamp2_mem entries.length (moveCursor h entries s c) hlen
  have hrc := recenter_spec (capacity h entries.length s.2)
    (clamp2 entries.length (moveCursor h entries s c)) s.2 hcap hcl.1 h3
  simp only [lstep, lvalid]
  exact ⟨⟨hrc.1, hrc.2.1⟩, hcl.1, hcl.2, hrc.2.2, by omega⟩

theorem runL_valid (h : Int) (entries : List (List Char)) (cs : List Int)
    (hh : 4 ≤ h) :
    ∀ s : Int × Int, lvalid entries.length s →
      lvalid entries.length (runL h entries s cs) := by
  induction cs with
  | nil => intro s hv; exact hv
  | cons c cs ih =>
    intro s hv
    have h' := (lstep_contains h entries s c hh hv).2
    simpa [runL] using ih (lstep h entries s c) h'

/-- Claim C2: from any valid initial list-box state, after every command
of every command sequence the containment invariant
`start_indx ≤ cursor_indx < start_indx + item_disp_ct` holds, where
`item_disp_ct` is the effective capacity computed by the pass that
processed the command (re-centering uses `cursor - item_disp_ct/2`,
clamped at 0 only, with no upper clamp).  `4 ≤ h` (interior height)
keeps the effective capacity at least 1. -/
theorem c2_viewport_containment (h : Int) (entries : List (List Char))
    (s0 : Int × Int) (cs : List Int) (c : Int) (hh : 4 ≤ h)
    (hv : lvalid entries.length s0) :
    (lstep h entries (runL h entries s0 cs) c).2 ≤
      (lstep h entries (runL h entries s0 cs) c).1 ∧
    (lstep h entries (runL h entries s0 cs) c).1 <
      (lstep h entries (runL h entries s0 cs) c).2 +
        capacity h entries.length (runL h entries s0 cs).2 :=
  (lstep_contains h entries (runL h entries s0 cs) c hh
    (runL_valid h entries cs hh s0 hv)).1

/-- Witness for `c2_viewport_containment`: three entries, interior
height 4, a DOWN after a DOWN. -/
theorem c2_viewport_containment_witness :
    (lstep 4 [['x'], ['y'], ['z']]
        (runL 4 [['x'], ['y'], ['z']] ((0 : Int), (0 : Int)) [DOWN]) DOWN).2 ≤
      (lstep 4 [['x'], ['y'], ['z']]
        (runL 4 [['x'], ['y'], ['z']] ((0 : Int), (0 : Int)) [DOWN]) DOWN).1 ∧
    (lstep 4 [['x'], ['y'], ['z']]
        (runL 4 [['x'], ['y'], ['z']] ((0 : Int), (0 : Int)) [DOWN]) DOWN).1 <
      (lstep 4 [['x'], ['y'], ['z']]
        (runL 4 [['x'], ['y'], ['z']] ((0 : Int), (0 : Int)) [DOWN]) DOWN).2 +
        capacity 4 ([['x'], ['y'], ['z']] : List (List Char)).length
          (runL 4 [['x'], ['y'], ['z']] ((0 : Int), (0 : Int)) [DOWN]).2 :=
  c2_viewport_containment 4 [['x'], ['y'], ['z']] (0, 0) [DOWN] DOWN
    (by omega) (by simp only [lvalid]; norm_num)

end CursesDialog
